import Mathlib

/-!
Verification of the desk-environment controller core: the stateful
hysteresis rules, the per-tick state transition and energy accounting of
`Controller.step`, and the explanation engine with its rule-based
fallback.  Machine floats are modelled as rationals; sensor dictionaries
are modelled as records already carrying the documented defaults.
-/

namespace Desk

/-- A sensor reading, after field extraction with defaults
(`present=false`, `light_lux=0`, `temperature_c=0`, `humidity_pct=0`,
`posture_score=1`). -/
structure SensorReading where
  present : Bool := false
  light_lux : ℚ := 0
  temperature_c : ℚ := 0
  humidity_pct : ℚ := 0
  posture_score : ℚ := 1
deriving Repr, DecidableEq

/-- Controller configuration: the threshold and energy values read from
the config dictionary in `Controller.__init__` / `Controller.step`, with
the source defaults. -/
structure Config where
  on_lux : ℚ := 200
  off_lux : ℚ := 400
  on_c : ℚ := 27
  off_c : ℚ := 24
  humid_on_pct : ℚ := 65
  bad_threshold : ℚ := 7/10
  light_w : ℚ := 10
  fan_w : ℚ := 30
deriving Repr, DecidableEq

/-- The `DeskState` dataclass: actuator flags, last-action timestamp
(timestamps modelled as naturals) and cumulative energy. -/
structure DeskState where
  light_on : Bool := false
  fan_on : Bool := false
  posture_alert_on : Bool := false
  last_action_ts : Option Nat := none
  energy_used_wh : ℚ := 0
deriving Repr, DecidableEq

/-- The initial `DeskState()` with all defaults. -/
def DeskState.init : DeskState := {}

/-- Source function `rules.decide_light_action`. -/
def decide_light_action (light_lux : ℚ) (present : Bool)
    (on_threshold off_threshold : ℚ) : String :=
  if !present then "turn_off_light"
  else if light_lux < on_threshold then "turn_on_light"
  else if light_lux > off_threshold then "turn_off_light"
  else "no_change"

/-- Source function `rules.decide_fan_action`. -/
def decide_fan_action (temperature_c humidity_pct : ℚ) (present : Bool)
    (temp_on temp_off humid_on : ℚ) : String :=
  if !present then "turn_off_fan"
  else if temperature_c > temp_on ∨ humidity_pct > humid_on then "turn_on_fan"
  else if temperature_c < temp_off then "turn_off_fan"
  else "no_change"

/-- Source function `rules.decide_posture_alert`. -/
def decide_posture_alert (posture_score : ℚ) (present : Bool)
    (bad_posture_threshold : ℚ) : String :=
  if !present then "clear_posture_alert"
  else if posture_score < bad_posture_threshold then "posture_alert_on"
  else "clear_posture_alert"

/-- One reconciliation block of `Controller.step`: translate a channel
intent into a flag update plus the emitted action, only when the intent
flips the current boolean (the `if la == ...: if not state.x: ...`
pattern repeated for light, fan and posture). -/
def toggleUpdate (act onTok offTok : String) (cur : Bool) : Bool × List String :=
  if act == onTok then
    if cur then (cur, []) else (true, [act])
  else if act == offTok then
    if cur then (false, [act]) else (cur, [])
  else (cur, [])

/-- The source method `Controller.step`: evaluate the three rules, reconcile each against
the current flags, integrate energy over `dt_seconds / 3600` hours using
the post-transition flags, and stamp `last_action_ts` when any action
was emitted. -/
def Controller.step (cfg : Config) (sensor : SensorReading) (state : DeskState)
    (dt_seconds : ℚ) (now : Nat) : DeskState × List String :=
  let la := decide_light_action sensor.light_lux sensor.present cfg.on_lux cfg.off_lux
  let lightRes := toggleUpdate la "turn_on_light" "turn_off_light" state.light_on
  let fa := decide_fan_action sensor.temperature_c sensor.humidity_pct sensor.present
      cfg.on_c cfg.off_c cfg.humid_on_pct
  let fanRes := toggleUpdate fa "turn_on_fan" "turn_off_fan" state.fan_on
  let pa := decide_posture_alert sensor.posture_score sensor.present cfg.bad_threshold
  let postureRes := toggleUpdate pa "posture_alert_on" "clear_posture_alert" state.posture_alert_on
  let actions := lightRes.2 ++ fanRes.2 ++ postureRes.2
  let hours := dt_seconds / 3600
  let energy1 :=
    if lightRes.1 then state.energy_used_wh + cfg.light_w * hours
    else state.energy_used_wh
  let energy2 := if fanRes.1 then energy1 + cfg.fan_w * hours else energy1
  ({ light_on := lightRes.1
     fan_on := fanRes.1
     posture_alert_on := postureRes.1
     last_action_ts := if actions.isEmpty then state.last_action_ts else some now
     energy_used_wh := energy2 }, actions)

/-! ## Explanation engine (`src/ai/llm_client.py`)

The network transport is environmental: its possible observable results
are modelled by `RemoteOutcome`, and `callLLM` reproduces the response
processing of `LLMClient._call_llm` on each of them. -/

/-- The `LLMConfig` dataclass with source defaults. -/
structure LLMConfig where
  enabled : Bool := false
  provider : String := "ollama"
  model : String := "llama3.1"
  max_tokens : Int := 120
  temperature : ℚ := 1/5
  endpoint : String := "http://localhost:11434/api/generate"
deriving Repr, DecidableEq

/-- A Python exception escaping `_call_llm`. -/
inductive PyError
  | attributeError
deriving Repr, DecidableEq

/-- The `"response"` field of a parsed JSON object body: missing,
present but not a string, or a string. -/
inductive JsonField
  | missing
  | notString
  | str (s : String)
deriving Repr, DecidableEq

/-- A body that `json.loads` accepted: either a JSON value that is not
an object (so it has no `get` method), or an object described by its
`"response"` field. -/
inductive ParsedBody
  | nonObject
  | object (response : JsonField)
deriving Repr, DecidableEq

/-- The observable result of the HTTP request issued by `_call_llm`:
a connection error (`urllib.error.URLError`), a timeout, or a response
carrying a status code and a body (`none` when the body fails JSON
parsing with `ValueError`, otherwise the parsed body). -/
inductive RemoteOutcome
  | connectionError
  | timeoutErr
  | response (status : Nat) (body : Option ParsedBody)
deriving Repr, DecidableEq

/-- ASCII lowering of a string, character by character: the model of
the Python `str.lower()` call on the provider name. -/
def pyLower (s : String) : String := ⟨s.data.map Char.toLower⟩

/-- The source method `LLMClient._call_llm`: gate on `enabled` and a
lowercased provider equal to `ollama`; return `None` on transport
errors, a non-200 status, a body rejected by `json.loads` (only
`ValueError` is caught), and a missing or non-string `"response"`
field; return the stripped `"response"` string on success.  When the
body parses to a non-object JSON value, the `parsed.get("response")`
call sits outside the try block and raises `AttributeError`, modelled
as an `Except.error`. -/
def callLLM (cfg : LLMConfig) (outcome : RemoteOutcome) : Except PyError (Option String) :=
  if !cfg.enabled || pyLower cfg.provider != "ollama" then .ok none
  else
    match outcome with
    | .connectionError => .ok none
    | .timeoutErr => .ok none
    | .response status body =>
      if status ≠ 200 then .ok none
      else
        match body with
        | none => .ok none
        | some .nonObject => .error .attributeError
        | some (.object .missing) => .ok none
        | some (.object .notString) => .ok none
        | some (.object (.str s)) => .ok (some s.trim)

/-- Space-separated join of a list of strings (the `join` call of the
fallback explainer). -/
def joinSp : List String → String
  | [] => ""
  | [s] => s
  | s :: rest => s ++ " " ++ joinSp rest

/-- The `parts` list built by `LLMClient._rule_based_explanation`: one
canned, value-interpolated sentence per recognized action token found in
the action list. -/
def explanation_parts (sensor : SensorReading) (actions : List String) : List String :=
      (if actions.contains "turn_on_light" then
        [if sensor.present then
          "I turned on the desk light because it was dim (~" ++ toString sensor.light_lux
            ++ " lux) while you were here."
        else
          "I switched on the desk light so the space is ready even though you just stepped away."]
      else []) ++
      (if actions.contains "turn_off_light" then
        [if sensor.present then
          "I turned off the desk light because the area was already bright enough."
        else
          "I turned off the desk light because you are not at the desk, to save energy."]
      else []) ++
      (if actions.contains "turn_on_fan" then
        ["I turned on the fan since it felt warm or humid (about "
          ++ toString sensor.temperature_c ++ "°C, " ++ toString sensor.humidity_pct
          ++ "% humidity)."]
      else []) ++
      (if actions.contains "turn_off_fan" then
        ["I turned off the fan because temperature and humidity returned to a comfortable range."]
      else []) ++
      (if actions.contains "posture_alert_on" then
        ["I sent a posture reminder because your posture score dropped to "
          ++ toString sensor.posture_score
          ++ ". Please sit upright and relax your shoulders."]
      else []) ++
      (if actions.contains "clear_posture_alert" then
        ["Great job improving your posture — I\x27m clearing the alert for now."]
      else [])

/-- The source method `LLMClient._rule_based_explanation`: canned, value-interpolated
sentences keyed on the action tokens, with dedicated texts for the empty
action list and for an action list carrying no recognized token. -/
def rule_based_explanation (sensor : SensorReading) (actions : List String) : String :=
  if actions.isEmpty then
    if !sensor.present then
      "No adjustments needed while you are away; keeping devices off to save energy."
    else
      "Everything looks comfortable right now, so I left the setup as-is."
  else if (explanation_parts sensor actions).isEmpty then
    "I adjusted your environment for comfort, efficiency, and better posture."
  else
    joinSp (explanation_parts sensor actions)

/-- The source method `LLMClient.explain_decision`: use the remote text
when `_call_llm` returned a truthy (non-`None`, non-empty) string, fall
back to the rule-based explainer otherwise, and propagate any exception
`_call_llm` raises (nothing in it catches one). -/
def explain_decision (cfg : LLMConfig) (outcome : RemoteOutcome)
    (sensor : SensorReading) (actions : List String) : Except PyError String :=
  match callLLM cfg outcome with
  | .error e => .error e
  | .ok (some t) => .ok (if t.length ≠ 0 then t else rule_based_explanation sensor actions)
  | .ok none => .ok (rule_based_explanation sensor actions)

/-! ## Helper lemmas -/

/-- Action classifiers, from the closed token set. -/
def isLightAction (a : String) : Bool := a == "turn_on_light" || a == "turn_off_light"

def isFanAction (a : String) : Bool := a == "turn_on_fan" || a == "turn_off_fan"

def isPostureAction (a : String) : Bool := a == "posture_alert_on" || a == "clear_posture_alert"

lemma step_actions (cfg : Config) (r : SensorReading) (s : DeskState) (dt : ℚ) (now : Nat) :
    (Controller.step cfg r s dt now).2 =
      (toggleUpdate (decide_light_action r.light_lux r.present cfg.on_lux cfg.off_lux)
        "turn_on_light" "turn_off_light" s.light_on).2 ++
      (toggleUpdate (decide_fan_action r.temperature_c r.humidity_pct r.present
          cfg.on_c cfg.off_c cfg.humid_on_pct)
        "turn_on_fan" "turn_off_fan" s.fan_on).2 ++
      (toggleUpdate (decide_posture_alert r.posture_score r.present cfg.bad_threshold)
        "posture_alert_on" "clear_posture_alert" s.posture_alert_on).2 := rfl

lemma step_light_on (cfg : Config) (r : SensorReading) (s : DeskState) (dt : ℚ) (now : Nat) :
    (Controller.step cfg r s dt now).1.light_on =
      (toggleUpdate (decide_light_action r.light_lux r.present cfg.on_lux cfg.off_lux)
        "turn_on_light" "turn_off_light" s.light_on).1 := rfl

lemma step_fan_on (cfg : Config) (r : SensorReading) (s : DeskState) (dt : ℚ) (now : Nat) :
    (Controller.step cfg r s dt now).1.fan_on =
      (toggleUpdate (decide_fan_action r.temperature_c r.humidity_pct r.present
          cfg.on_c cfg.off_c cfg.humid_on_pct)
        "turn_on_fan" "turn_off_fan" s.fan_on).1 := rfl

lemma step_posture_on (cfg : Config) (r : SensorReading) (s : DeskState) (dt : ℚ) (now : Nat) :
    (Controller.step cfg r s dt now).1.posture_alert_on =
      (toggleUpdate (decide_posture_alert r.posture_score r.present cfg.bad_threshold)
        "posture_alert_on" "clear_posture_alert" s.posture_alert_on).1 := rfl

lemma toggleUpdate_snd_cases (a onTok offTok : String) (c : Bool) :
    (toggleUpdate a onTok offTok c).2 = [] ∨
    (toggleUpdate a onTok offTok c).2 = [onTok] ∨
    (toggleUpdate a onTok offTok c).2 = [offTok] := by
  unfold toggleUpdate
  by_cases h1 : a == onTok
  · rw [eq_of_beq h1]
    cases c <;> simp
  · by_cases h2 : a == offTok
    · rw [eq_of_beq h2] at h1 ⊢
      cases c <;> simp_all
    · simp [h1, h2]

lemma toggleUpdate_idem (a onTok offTok : String) (c : Bool) :
    (toggleUpdate a onTok offTok (toggleUpdate a onTok offTok c).1).2 = [] := by
  unfold toggleUpdate
  by_cases h1 : a == onTok
  · cases c <;> simp [h1]
  · by_cases h2 : a == offTok
    · cases c <;> simp [h1, h2]
    · simp [h1, h2]

lemma step_energy_eq (cfg : Config) (r : SensorReading) (s : DeskState) (dt : ℚ) (now : Nat) :
    (Controller.step cfg r s dt now).1.energy_used_wh =
      s.energy_used_wh
      + (if (Controller.step cfg r s dt now).1.light_on then cfg.light_w * (dt / 3600) else 0)
      + (if (Controller.step cfg r s dt now).1.fan_on then cfg.fan_w * (dt / 3600) else 0) := by
  simp only [Controller.step]
  by_cases hL : (toggleUpdate (decide_light_action r.light_lux r.present cfg.on_lux cfg.off_lux)
      "turn_on_light" "turn_off_light" s.light_on).1
  · by_cases hF : (toggleUpdate (decide_fan_action r.temperature_c r.humidity_pct r.present
        cfg.on_c cfg.off_c cfg.humid_on_pct) "turn_on_fan" "turn_off_fan" s.fan_on).1
    · simp [hL, hF]
    · simp [hL, hF]
  · by_cases hF : (toggleUpdate (decide_fan_action r.temperature_c r.humidity_pct r.present
        cfg.on_c cfg.off_c cfg.humid_on_pct) "turn_on_fan" "turn_off_fan" s.fan_on).1
    · simp [hL, hF, add_assoc, add_comm]
    · simp [hL, hF]

/-- Default configuration (all source default thresholds and rates). -/
def cfgDefault : Config := {}

/-- A present reading that is dim enough to switch the light on and in
the temperature dead zone, so only the light ends up on. -/
def readingDim : SensorReading :=
  { present := true, light_lux := 100, temperature_c := 25,
    humidity_pct := 50, posture_score := 1 }

/-- A present reading that is dim and hot, so light and fan both end up
on. -/
def readingDimHot : SensorReading :=
  { present := true, light_lux := 100, temperature_c := 30,
    humidity_pct := 50, posture_score := 1 }

/-! ## Claims -/

/-- C3: action emission is idempotent: a second `Controller.step` with
the same reading, applied to the state produced by the first call,
emits an empty action list, for every reading, state and elapsed
times. -/
theorem c3_step_idempotent (cfg : Config) (r : SensorReading) (s : DeskState)
    (dt dt' : ℚ) (now now' : Nat) :
    (Controller.step cfg r ((Controller.step cfg r s dt now).1) dt' now').2 = [] := by
  rw [step_actions, step_light_on, step_fan_on, step_posture_on]
  simp [toggleUpdate_idem]

/-- C6: for present readings, `decide_fan_action` returns `turn_on_fan`
exactly when `temperature_c > on_c` or `humidity_pct > humid_on`,
returns `turn_off_fan` exactly when `temperature_c < off_c` and the ON
condition fails (so humidity never causes turn-off and can force ON
below `off_c`), and returns `no_change` otherwise. -/
theorem c6_fan_rule_asymmetry (t h temp_on temp_off humid_on : ℚ) :
    (decide_fan_action t h true temp_on temp_off humid_on = "turn_on_fan" ↔
      (t > temp_on ∨ h > humid_on))
    ∧ (decide_fan_action t h true temp_on temp_off humid_on = "turn_off_fan" ↔
      (t < temp_off ∧ ¬(t > temp_on ∨ h > humid_on)))
    ∧ (decide_fan_action t h true temp_on temp_off humid_on = "no_change" ↔
      (¬(t > temp_on ∨ h > humid_on) ∧ ¬ t < temp_off)) := by
  by_cases h1 : (t > temp_on ∨ h > humid_on) <;> by_cases h2 : t < temp_off <;>
    simp [decide_fan_action, h1, h2]

/-- C7: each tick adds `light_w * dt/3600` exactly when the resulting
`light_on` holds and `fan_w * dt/3600` exactly when the resulting
`fan_on` holds; with the default rates (`light_w = 10`, `fan_w = 30`)
and `dt_seconds = 3600`, a tick ending with only the light on adds
exactly 10 Wh and a tick ending with light and fan on adds exactly
40 Wh. -/
theorem c7_energy_attribution :
    (∀ (cfg : Config) (r : SensorReading) (s : DeskState) (dt : ℚ) (now : Nat),
      (Controller.step cfg r s dt now).1.energy_used_wh =
        s.energy_used_wh
        + (if (Controller.step cfg r s dt now).1.light_on then cfg.light_w * (dt / 3600) else 0)
        + (if (Controller.step cfg r s dt now).1.fan_on then cfg.fan_w * (dt / 3600) else 0))
    ∧ ((Controller.step cfgDefault readingDim DeskState.init 3600 0).1.light_on = true
      ∧ (Controller.step cfgDefault readingDim DeskState.init 3600 0).1.fan_on = false
      ∧ (Controller.step cfgDefault readingDim DeskState.init 3600 0).1.energy_used_wh = 10)
    ∧ ((Controller.step cfgDefault readingDimHot DeskState.init 3600 0).1.light_on = true
      ∧ (Controller.step cfgDefault readingDimHot DeskState.init 3600 0).1.fan_on = true
      ∧ (Controller.step cfgDefault readingDimHot DeskState.init 3600 0).1.energy_used_wh = 40) :=
  ⟨fun cfg r s dt now => step_energy_eq cfg r s dt now,
    by
      norm_num [Controller.step, toggleUpdate, decide_light_action, decide_fan_action,
        decide_posture_alert, cfgDefault, readingDim, DeskState.init]
      decide,
    by norm_num [Controller.step, toggleUpdate, decide_light_action, decide_fan_action,
        decide_posture_alert, cfgDefault, readingDimHot, DeskState.init]⟩

/-- C9: every action list returned by `Controller.step` holds at most
one light action, at most one fan action and at most one posture
action, and equals its light actions followed by its fan actions
followed by its posture actions (the fixed emission order). -/
theorem c9_action_list_shape (cfg : Config) (r : SensorReading) (s : DeskState)
    (dt : ℚ) (now : Nat) :
    ((Controller.step cfg r s dt now).2.filter isLightAction).length ≤ 1
    ∧ ((Controller.step cfg r s dt now).2.filter isFanAction).length ≤ 1
    ∧ ((Controller.step cfg r s dt now).2.filter isPostureAction).length ≤ 1
    ∧ (Controller.step cfg r s dt now).2 =
        (Controller.step cfg r s dt now).2.filter isLightAction
        ++ (Controller.step cfg r s dt now).2.filter isFanAction
        ++ (Controller.step cfg r s dt now).2.filter isPostureAction := by
  rw [step_actions]
  rcases toggleUpdate_snd_cases
      (decide_light_action r.light_lux r.present cfg.on_lux cfg.off_lux)
      "turn_on_light" "turn_off_light" s.light_on with h1|h1|h1 <;>
    rcases toggleUpdate_snd_cases
        (decide_fan_action r.temperature_c r.humidity_pct r.present
          cfg.on_c cfg.off_c cfg.humid_on_pct)
        "turn_on_fan" "turn_off_fan" s.fan_on with h2|h2|h2 <;>
      rcases toggleUpdate_snd_cases
          (decide_posture_alert r.posture_score r.present cfg.bad_threshold)
          "posture_alert_on" "clear_posture_alert" s.posture_alert_on with h3|h3|h3 <;>
        rw [h1, h2, h3] <;> decide

/-- A present reading that is bright and hot, so only the fan ends up
on. -/
def readingBrightHot : SensorReading :=
  { present := true, light_lux := 500, temperature_c := 30,
    humidity_pct := 50, posture_score := 1 }

/-- C1 counterexample: with the default configuration, a dim present
reading and `dt_seconds = -3600`, the tick ends with the light on and
`energy_used_wh` drops from 0 to -10, so a negative `dt_seconds` is not
treated as 0 and energy decreases. -/
theorem c1_negative_dt_counterexample :
    (Controller.step cfgDefault readingDim DeskState.init (-3600) 0).1.energy_used_wh = -10
    ∧ DeskState.init.energy_used_wh = 0
    ∧ (Controller.step cfgDefault readingDim DeskState.init (-3600) 0).1.energy_used_wh
        < DeskState.init.energy_used_wh := by
  norm_num [Controller.step, toggleUpdate, decide_light_action, decide_fan_action,
    decide_posture_alert, cfgDefault, readingDim, DeskState.init]
  decide

/-- C1 (amended): `Controller.step` applies no clamp to a negative
`dt_seconds`: when both resulting devices are off the energy is
unchanged, but when the resulting `light_on` is true (with a positive
light rate and nonnegative fan rate) the energy strictly decreases. -/
theorem c1_no_negative_dt_clamp (cfg : Config) (r : SensorReading) (s : DeskState)
    (dt : ℚ) (now : Nat) (hdt : dt < 0) :
    ((Controller.step cfg r s dt now).1.light_on = false →
      (Controller.step cfg r s dt now).1.fan_on = false →
      (Controller.step cfg r s dt now).1.energy_used_wh = s.energy_used_wh)
    ∧ ((Controller.step cfg r s dt now).1.light_on = true →
      0 < cfg.light_w → 0 ≤ cfg.fan_w →
      (Controller.step cfg r s dt now).1.energy_used_wh < s.energy_used_wh) := by
  have he := step_energy_eq cfg r s dt now
  constructor
  · intro hL hF
    rw [he, hL, hF]
    simp
  · intro hL hlw hfw
    have hneg : dt / 3600 < 0 := div_neg_of_neg_of_pos hdt (by norm_num)
    have h1 : cfg.light_w * (dt / 3600) < 0 := mul_neg_of_pos_of_neg hlw hneg
    have h2 : (if (Controller.step cfg r s dt now).1.fan_on then
        cfg.fan_w * (dt / 3600) else 0) ≤ 0 := by
      split
      · exact mul_nonpos_iff.mpr (Or.inl ⟨hfw, hneg.le⟩)
      · exact le_refl 0
    have h3 : (if (Controller.step cfg r s dt now).1.light_on then
        cfg.light_w * (dt / 3600) else 0) = cfg.light_w * (dt / 3600) := by
      rw [hL]
      simp
    linarith [he, h1, h2, h3]

/-- C1 witness: the amended statement applied at the default
configuration, the dim reading and `dt_seconds = -3600`. -/
theorem c1_no_negative_dt_clamp_witness :
    (Controller.step cfgDefault readingDim DeskState.init (-3600) 0).1.energy_used_wh
      < DeskState.init.energy_used_wh :=
  (c1_no_negative_dt_clamp cfgDefault readingDim DeskState.init (-3600) 0
      (by norm_num)).2
    (by norm_num [Controller.step, toggleUpdate, decide_light_action,
      cfgDefault, readingDim, DeskState.init])
    (by norm_num [cfgDefault]) (by norm_num [cfgDefault])

/-- C2 counterexample: with the default configuration, a bright hot
present reading and `dt_seconds = -7200`, the tick ends with the fan on
and `energy_used_wh` falls from 0 to -60: it both decreases and goes
negative. -/
theorem c2_energy_monotone_counterexample :
    DeskState.init.energy_used_wh = 0
    ∧ (Controller.step cfgDefault readingBrightHot DeskState.init (-7200) 0).1.energy_used_wh = -60
    ∧ (Controller.step cfgDefault readingBrightHot DeskState.init (-7200) 0).1.energy_used_wh
        < DeskState.init.energy_used_wh
    ∧ (Controller.step cfgDefault readingBrightHot DeskState.init (-7200) 0).1.energy_used_wh < 0 := by
  norm_num [Controller.step, toggleUpdate, decide_light_action, decide_fan_action,
    decide_posture_alert, cfgDefault, readingBrightHot, DeskState.init]
  decide

/-- C2 (amended): `energy_used_wh` starts at 0; for nonnegative
configured rates and nonnegative `dt_seconds` every step leaves it no
smaller than before (hence nonnegative when it was), and a step with
`dt_seconds = 0` leaves it exactly unchanged for every configuration. -/
theorem c2_energy_monotone_nonneg_dt :
    DeskState.init.energy_used_wh = 0
    ∧ (∀ (cfg : Config) (r : SensorReading) (s : DeskState) (dt : ℚ) (now : Nat),
        0 ≤ cfg.light_w → 0 ≤ cfg.fan_w → 0 ≤ dt →
          s.energy_used_wh ≤ (Controller.step cfg r s dt now).1.energy_used_wh
          ∧ (0 ≤ s.energy_used_wh → 0 ≤ (Controller.step cfg r s dt now).1.energy_used_wh))
    ∧ (∀ (cfg : Config) (r : SensorReading) (s : DeskState) (now : Nat),
        (Controller.step cfg r s 0 now).1.energy_used_wh = s.energy_used_wh) := by
  refine ⟨rfl, ?_, ?_⟩
  · intro cfg r s dt now hlw hfw hdt
    have he := step_energy_eq cfg r s dt now
    have hh : 0 ≤ dt / 3600 := by positivity
    have h1 : 0 ≤ (if (Controller.step cfg r s dt now).1.light_on then
        cfg.light_w * (dt / 3600) else 0) := by
      split
      · exact mul_nonneg hlw hh
      · exact le_refl 0
    have h2 : 0 ≤ (if (Controller.step cfg r s dt now).1.fan_on then
        cfg.fan_w * (dt / 3600) else 0) := by
      split
      · exact mul_nonneg hfw hh
      · exact le_refl 0
    exact ⟨by linarith, fun h0 => by linarith⟩
  · intro cfg r s now
    have he := step_energy_eq cfg r s 0 now
    simpa using he

/-- C2 witness: the amended monotonicity applied at the default
configuration, the dim reading and `dt_seconds = 60`. -/
theorem c2_energy_monotone_nonneg_dt_witness :
    DeskState.init.energy_used_wh ≤
      (Controller.step cfgDefault readingDim DeskState.init 60 0).1.energy_used_wh :=
  (c2_energy_monotone_nonneg_dt.2.1 cfgDefault readingDim DeskState.init 60 0
    (by norm_num [cfgDefault]) (by norm_num [cfgDefault]) (by norm_num)).1

/-- Run `Controller.step` over a finite sequence of readings with their
elapsed times, threading the state and collecting the per-tick action
lists. -/
def runSteps (cfg : Config) (s : DeskState) :
    List (SensorReading × ℚ) → DeskState × List (List String)
  | [] => (s, [])
  | (r, dt) :: rest =>
    ((runSteps cfg (Controller.step cfg r s dt 0).1 rest).1,
      (Controller.step cfg r s dt 0).2 :: (runSteps cfg (Controller.step cfg r s dt 0).1 rest).2)

lemma step_deadzone_light (cfg : Config) (r : SensorReading) (s : DeskState)
    (dt : ℚ) (now : Nat) (hp : r.present = true)
    (h1 : cfg.on_lux < r.light_lux) (h2 : r.light_lux < cfg.off_lux)
    (h0 : s.light_on = false) :
    (Controller.step cfg r s dt now).1.light_on = false
    ∧ "turn_on_light" ∉ (Controller.step cfg r s dt now).2
    ∧ "turn_off_light" ∉ (Controller.step cfg r s dt now).2 := by
  have hla : decide_light_action r.light_lux r.present cfg.on_lux cfg.off_lux = "no_change" := by
    have h1' : ¬ r.light_lux < cfg.on_lux := not_lt.mpr h1.le
    have h2' : ¬ r.light_lux > cfg.off_lux := not_lt.mpr h2.le
    simp [decide_light_action, hp, h1', h2']
  refine ⟨?_, ?_⟩
  · rw [step_light_on, hla, h0]
    decide
  · rw [step_actions, hla, h0]
    rcases toggleUpdate_snd_cases
        (decide_fan_action r.temperature_c r.humidity_pct r.present
          cfg.on_c cfg.off_c cfg.humid_on_pct)
        "turn_on_fan" "turn_off_fan" s.fan_on with hf|hf|hf <;>
      rcases toggleUpdate_snd_cases
          (decide_posture_alert r.posture_score r.present cfg.bad_threshold)
          "posture_alert_on" "clear_posture_alert" s.posture_alert_on with hq|hq|hq <;>
        rw [hf, hq] <;> exact ⟨by decide, by decide⟩

/-- C4: starting from a state with the light off, any finite sequence
of present readings whose `light_lux` stays strictly inside the
`(on_lux, off_lux)` dead zone leaves `light_on` false and never emits a
light action on any tick. -/
theorem c4_hysteresis_no_flicker (cfg : Config) (steps : List (SensorReading × ℚ))
    (s : DeskState)
    (hall : ∀ p ∈ steps, p.1.present = true
      ∧ cfg.on_lux < p.1.light_lux ∧ p.1.light_lux < cfg.off_lux)
    (h0 : s.light_on = false) :
    (runSteps cfg s steps).1.light_on = false
    ∧ ∀ acts ∈ (runSteps cfg s steps).2,
        "turn_on_light" ∉ acts ∧ "turn_off_light" ∉ acts := by
  induction steps generalizing s with
  | nil =>
    simp [runSteps, h0]
  | cons p rest ih =>
    obtain ⟨r, dt⟩ := p
    have hp := hall (r, dt) (List.mem_cons_self _ _)
    have hstep := step_deadzone_light cfg r s dt 0 hp.1 hp.2.1 hp.2.2 h0
    have hrest := ih (Controller.step cfg r s dt 0).1
      (fun q hq => hall q (List.mem_cons_of_mem _ hq)) hstep.1
    refine ⟨hrest.1, ?_⟩
    intro acts hacts
    rcases List.mem_cons.mp hacts with hEq | hMem
    · rw [hEq]
      exact ⟨hstep.2.1, hstep.2.2⟩
    · exact hrest.2 acts hMem

/-- A two-tick dead-zone scenario under the default thresholds. -/
def stepsDeadzone : List (SensorReading × ℚ) :=
  [({ present := true, light_lux := 250, temperature_c := 25,
      humidity_pct := 50, posture_score := 1 }, 60),
   ({ present := true, light_lux := 399, temperature_c := 25,
      humidity_pct := 50, posture_score := 1 }, 60)]

/-- C4 witness: the no-flicker theorem applied to the concrete two-tick
dead-zone scenario from the initial state. -/
theorem c4_hysteresis_no_flicker_witness :
    (runSteps cfgDefault DeskState.init stepsDeadzone).1.light_on = false :=
  (c4_hysteresis_no_flicker cfgDefault stepsDeadzone DeskState.init
    (by
      intro p hp
      simp only [stepsDeadzone, List.mem_cons, List.not_mem_nil, or_false] at hp
      rcases hp with h | h <;> subst h <;>
        exact ⟨rfl, by norm_num [cfgDefault], by norm_num [cfgDefault]⟩)
    rfl).1

/-- An absent reading whose other sensor values would otherwise turn
everything on. -/
def readingAway : SensorReading :=
  { present := false, light_lux := 100, temperature_c := 30,
    humidity_pct := 70, posture_score := 0 }

/-- A state with every device and alert on. -/
def stateAllOn : DeskState :=
  { light_on := true, fan_on := true, posture_alert_on := true,
    last_action_ts := none, energy_used_wh := 0 }

/-- C5: an absent reading forces the resulting `light_on`, `fan_on` and
`posture_alert_on` all false regardless of the other sensor values, and
a further step with another absent reading emits no actions. -/
theorem c5_presence_override (cfg : Config) (r r' : SensorReading) (s : DeskState)
    (dt dt' : ℚ) (now now' : Nat)
    (h : r.present = false) (h' : r'.present = false) :
    (Controller.step cfg r s dt now).1.light_on = false
    ∧ (Controller.step cfg r s dt now).1.fan_on = false
    ∧ (Controller.step cfg r s dt now).1.posture_alert_on = false
    ∧ (Controller.step cfg r' ((Controller.step cfg r s dt now).1) dt' now').2 = [] := by
  have hla : decide_light_action r.light_lux r.present cfg.on_lux cfg.off_lux
      = "turn_off_light" := by simp [decide_light_action, h]
  have hfa : decide_fan_action r.temperature_c r.humidity_pct r.present
      cfg.on_c cfg.off_c cfg.humid_on_pct = "turn_off_fan" := by
    simp [decide_fan_action, h]
  have hpa : decide_posture_alert r.posture_score r.present cfg.bad_threshold
      = "clear_posture_alert" := by simp [decide_posture_alert, h]
  have hla' : decide_light_action r'.light_lux r'.present cfg.on_lux cfg.off_lux
      = "turn_off_light" := by simp [decide_light_action, h']
  have hfa' : decide_fan_action r'.temperature_c r'.humidity_pct r'.present
      cfg.on_c cfg.off_c cfg.humid_on_pct = "turn_off_fan" := by
    simp [decide_fan_action, h']
  have hpa' : decide_posture_alert r'.posture_score r'.present cfg.bad_threshold
      = "clear_posture_alert" := by simp [decide_posture_alert, h']
  have hL : (Controller.step cfg r s dt now).1.light_on = false := by
    rw [step_light_on, hla]
    cases s.light_on <;> decide
  have hF : (Controller.step cfg r s dt now).1.fan_on = false := by
    rw [step_fan_on, hfa]
    cases s.fan_on <;> decide
  have hP : (Controller.step cfg r s dt now).1.posture_alert_on = false := by
    rw [step_posture_on, hpa]
    cases s.posture_alert_on <;> decide
  refine ⟨hL, hF, hP, ?_⟩
  rw [step_actions, hla', hfa', hpa', hL, hF, hP]
  decide

/-- C5 witness: the presence override applied to two consecutive absent
readings starting from the all-on state. -/
theorem c5_presence_override_witness :
    (Controller.step cfgDefault readingAway
      ((Controller.step cfgDefault readingAway stateAllOn 60 0).1) 60 0).2 = [] :=
  (c5_presence_override cfgDefault readingAway readingAway stateAllOn 60 60 0 0
    rfl rfl).2.2.2

lemma length_append_pos_left (a b : String) (h : 0 < a.length) : 0 < (a ++ b).length := by
  rw [String.length_append]
  omega

lemma mem_ite_singleton {b : Bool} {x p : String}
    (h : p ∈ (if b then [x] else ([] : List String))) : p = x := by
  cases b <;> simp_all

lemma explanation_parts_all_pos (sensor : SensorReading) (actions : List String) :
    ∀ p ∈ explanation_parts sensor actions, 0 < p.length := by
  intro p hp
  unfold explanation_parts at hp
  simp only [List.mem_append] at hp
  rcases hp with ((((h | h) | h) | h) | h) | h <;>
    rw [mem_ite_singleton h] <;>
    (try split) <;>
    (repeat' apply length_append_pos_left) <;>
    decide

lemma joinSp_length_pos :
    ∀ l : List String, (∀ p ∈ l, 0 < p.length) → l ≠ [] → 0 < (joinSp l).length
  | [], _, hne => absurd rfl hne
  | [s], h, _ => by simpa [joinSp] using h s (by simp)
  | s :: t :: rest, h, _ => by
    have hs := h s (by simp)
    simp only [joinSp]
    rw [String.length_append, String.length_append]
    omega

lemma rule_based_explanation_length_pos (sensor : SensorReading) (actions : List String) :
    0 < (rule_based_explanation sensor actions).length := by
  unfold rule_based_explanation
  split
  · split <;> decide
  · split
    · decide
    · rename_i hne
      exact joinSp_length_pos _ (explanation_parts_all_pos sensor actions)
        (fun hEq => hne (by simp [hEq]))

/-- C8: evaluation of the code at the failing input: with the client
enabled for the `ollama` provider, a 200 response whose body is valid
JSON but not a JSON object (for example `null`, a list, or a bare
string) makes the unguarded `parsed.get("response")` call raise
`AttributeError`, which propagates out of `explain_decision` instead of
falling back to the rule-based text, so `explain` does raise and
returns no string at all on this input. -/
theorem c8_attribute_error_on_non_object_body :
    callLLM { enabled := true, provider := "ollama" }
        (.response 200 (some .nonObject)) = .error .attributeError
    ∧ explain_decision { enabled := true, provider := "ollama" }
        (.response 200 (some .nonObject)) readingAway []
      = .error .attributeError := by
  constructor <;> rfl

/-- C10: `_call_llm` can produce anything other than a plain `None`
result only when `enabled` holds and the lowercased provider is
`"ollama"`; otherwise it returns `None` for every possible remote
outcome — no request, no exception — and `explain_decision` is exactly
the deterministic rule-based fallback, independent of the environment. -/
theorem c10_remote_gating (cfg : LLMConfig) (sensor : SensorReading) (actions : List String) :
    (∀ outcome : RemoteOutcome, callLLM cfg outcome ≠ .ok none →
      cfg.enabled = true ∧ pyLower cfg.provider = "ollama")
    ∧ ((cfg.enabled = false ∨ pyLower cfg.provider ≠ "ollama") →
      ∀ outcome : RemoteOutcome, callLLM cfg outcome = .ok none
        ∧ explain_decision cfg outcome sensor actions
            = .ok (rule_based_explanation sensor actions)) := by
  constructor
  · intro outcome h
    by_cases he : cfg.enabled = true
    · by_cases hp : pyLower cfg.provider = "ollama"
      · exact ⟨he, hp⟩
      · exact absurd (by simp [callLLM, hp]) h
    · exact absurd (by simp [callLLM, Bool.not_eq_true _ ▸ he]) h
  · intro hg outcome
    have hnone : callLLM cfg outcome = .ok none := by
      rcases hg with h | h
      · simp [callLLM, h]
      · simp [callLLM, h]
    exact ⟨hnone, by simp [explain_decision, hnone]⟩

/-- C10 witness: with `enabled = false`, the call is gated off and the
explanation equals the fallback even for a successful-looking remote
outcome. -/
theorem c10_remote_gating_witness :
    callLLM { enabled := false, provider := "ollama" }
        (.response 200 (some (.object (.str "hello")))) = .ok none
    ∧ explain_decision { enabled := false, provider := "ollama" }
        (.response 200 (some (.object (.str "hello")))) readingAway []
      = .ok (rule_based_explanation readingAway []) :=
  (c10_remote_gating { enabled := false, provider := "ollama" } readingAway []).2
    (Or.inl rfl) (.response 200 (some (.object (.str "hello"))))

end Desk
